import Mathlib

/-!
Verification of `digitize_board.py` against its specification.

The development shallowly embeds the program: the request executor
`BoardDigitizer._call_api` becomes a trace-producing function over an
abstract sequence of HTTP responses, the prompt composer and the four
pipeline stages become pure string/message builders, `process_board`
becomes a state-passing function over an abstract file system, and the
batch loop of `main` becomes a fold.  All definitions are translated
directly from the source; theorems below settle the specification's
claims about them.
-/

namespace DigitizeBoard

/-! ### Basic string helpers

Python strings are modelled by Lean `String` (a list of characters).
`lowerData` models `str.lower()` (ASCII case folding, which is all the
source relies on), and `containsSub` models the Python substring test
`needle in hay`. -/

/-- Characters of `s` with ASCII upper-case letters folded to lower case;
models Python `s.lower()` for the ASCII text the program inspects. -/
def lowerData (s : String) : List Char :=
  s.data.map Char.toLower

/-- `s.lower()` as a `String`. -/
def lowerStr (s : String) : String :=
  String.mk (lowerData s)

/-- Boolean list-prefix test. -/
def isPrefixList (xs ys : List Char) : Bool :=
  match xs, ys with
  | [], _ => true
  | _ :: _, [] => false
  | x :: xs, y :: ys => x == y && isPrefixList xs ys

/-- Boolean substring test on character lists; models Python `xs in ys`. -/
def containsSub (needle : List Char) : List Char → Bool
  | [] => isPrefixList needle []
  | c :: rest => isPrefixList needle (c :: rest) || containsSub needle rest

/-- Models the Python test `"vision" in error_body.lower()` from
`_call_api`'s HTTP 400 classification branch. -/
def mentionsVision (body : String) : Bool :=
  containsSub "vision".data (lowerData body)

/-! ### Configuration and constants (from `BoardDigitizer.__init__` and
class attributes) -/

/-- Class constant `BoardDigitizer.MAX_RETRIES = 3`. -/
def MAX_RETRIES : Nat := 3

/-- Class constant `BoardDigitizer.RETRY_BASE_DELAY = 2` (seconds). -/
def RETRY_BASE_DELAY : Nat := 2

/-- Class constant `BoardDigitizer.SUPPORTED_FORMATS`. -/
def SUPPORTED_FORMATS : List String := [".jpg", ".jpeg", ".png", ".webp"]

/-- The constructor state of `BoardDigitizer` (`__init__` parameters). -/
structure Config where
  api_key : String
  model : String
  fallback_model : String
  output_dir : String
  max_tokens : Nat
  template : String
  context : String
  confidence : Bool
deriving DecidableEq, Repr

/-! ### Messages (the chat payload sent to the remote service) -/

/-- One part of a multimodal user message (`_build_vision_message`). -/
inductive ContentPart where
  | imageUrl (url : String)
  | text (s : String)
deriving DecidableEq, Repr

/-- The content of one chat message: either a plain string or a list of
parts. -/
inductive MessageContent where
  | text (s : String)
  | parts (ps : List ContentPart)
deriving DecidableEq, Repr

/-- A role-tagged chat message. -/
structure Message where
  role : String
  content : MessageContent
deriving DecidableEq, Repr

/-! ### The request executor `_call_api`

The remote endpoint is abstracted as `env : Nat → ApiResponse`, giving
the response to the `k`-th HTTP request the process issues (counted
globally across retries and fallback).  The executor's observable
behaviour is a trace of `Step`s — one `request` step per attempt and one
`sleep` step per back-off delay — plus an outcome. -/

/-- Possible results of one `requests.post` call, as distinguished by the
`except` clauses of `_call_api`: a 2xx response with extracted content, a
`Timeout`, an `HTTPError` with status and body, or any other
`RequestException` (connection-level failure). -/
inductive ApiResponse where
  | success (content : String)
  | timeout
  | httpError (status : Nat) (body : String)
  | connectionError
deriving DecidableEq, Repr

/-- Observable step of `_call_api`: an HTTP request attempt (with the
model, the message payload and the 1-based attempt number within the
current model's loop), or a `time.sleep` of the given number of seconds. -/
inductive Step where
  | request (model : String) (messages : List Message) (attempt : Nat)
  | sleep (seconds : Nat)
deriving DecidableEq, Repr

/-- The terminal `RuntimeError`s `_call_api` can raise: invalid API key
(HTTP 401), insufficient balance (HTTP 402), missing vision capability
(HTTP 400 whose body mentions "vision"), or all retries exhausted with
the last underlying failure. -/
inductive ApiError where
  | authError
  | balanceError
  | visionError (model : String)
  | allAttemptsFailed (last : Option ApiResponse)
deriving DecidableEq, Repr

/-- Result of the `for attempt in range(1, MAX_RETRIES + 1)` loop for one
model: a successful content return, a terminal raise from inside the
loop, or fall-through with the recorded `last_exception`. -/
inductive AttemptOutcome where
  | ok (content : String)
  | terminal (e : ApiError)
  | exhausted (last : Option ApiResponse)
deriving DecidableEq, Repr

/-- The retry loop of `_call_api` for one model (`digitize_board.py`
lines 201-270).  Arguments: `remaining` iterations left, `a` the current
1-based attempt number, `k` the global request counter, `last` the
current `last_exception`.  Returns the emitted steps, the next request
counter, and the loop outcome.  The guard `a < MAX_RETRIES` on each
`time.sleep` is taken verbatim from the source. -/
def runAttempts (env : Nat → ApiResponse) (msgs : List Message) (used : String) :
    Nat → Nat → Nat → Option ApiResponse → List Step × Nat × AttemptOutcome
  | 0, _, k, last => ([], k, .exhausted last)
  | remaining + 1, a, k, _last =>
    let req := Step.request used msgs a
    match env k with
    | .success c => ([req], k + 1, .ok c)
    | .timeout =>
      let rest := runAttempts env msgs used remaining (a + 1) (k + 1) (some .timeout)
      let sleeps := if a < MAX_RETRIES then [Step.sleep (RETRY_BASE_DELAY ^ a)] else []
      (req :: sleeps ++ rest.1, rest.2.1, rest.2.2)
    | .httpError status body =>
      if status = 401 then ([req], k + 1, .terminal .authError)
      else if status = 402 then ([req], k + 1, .terminal .balanceError)
      else if status = 400 ∧ mentionsVision body = true then
        ([req], k + 1, .terminal (.visionError used))
      else if status = 429 ∨ status = 503 then
        let rest := runAttempts env msgs used remaining (a + 1) (k + 1)
          (some (.httpError status body))
        let sleeps := if a < MAX_RETRIES then [Step.sleep (RETRY_BASE_DELAY ^ a)] else []
        (req :: sleeps ++ rest.1, rest.2.1, rest.2.2)
      else
        let rest := runAttempts env msgs used remaining (a + 1) (k + 1)
          (some (.httpError status body))
        let sleeps := if a < MAX_RETRIES then [Step.sleep RETRY_BASE_DELAY] else []
        (req :: sleeps ++ rest.1, rest.2.1, rest.2.2)
    | .connectionError =>
      let rest := runAttempts env msgs used remaining (a + 1) (k + 1) (some .connectionError)
      let sleeps := if a < MAX_RETRIES then [Step.sleep (RETRY_BASE_DELAY ^ a)] else []
      (req :: sleeps ++ rest.1, rest.2.1, rest.2.2)

/-- `_call_api` with explicit recursion fuel.  The Python function ends
with `return self._call_api(messages, model=self.fallback_model)` when
the exhausted model differs from the fallback model; that self-recursion
is modelled by `fuel`.  `modelArg` is the optional `model` parameter, and
`used = model or self.model` follows Python truthiness: `none` and the
empty string both resolve to the configured primary model.  An outcome of
`none` means the recursion exceeded the given depth (the Python call
would still be recursing). -/
def callApiFuel (cfg : Config) (env : Nat → ApiResponse) (msgs : List Message) :
    Nat → Option String → Nat → List Step × Option (Except ApiError String)
  | 0, _, _ => ([], none)
  | fuel + 1, modelArg, k =>
    let used := match modelArg with
      | none => cfg.model
      | some m => if m = "" then cfg.model else m
    match runAttempts env msgs used MAX_RETRIES 1 k none with
    | (steps, _, .ok c) => (steps, some (.ok c))
    | (steps, _, .terminal e) => (steps, some (.error e))
    | (steps, k2, .exhausted last) =>
      if used ≠ cfg.fallback_model then
        let rest := callApiFuel cfg env msgs fuel (some cfg.fallback_model) k2
        (steps ++ rest.1, rest.2)
      else (steps, some (.error (.allAttemptsFailed last)))

/-- `_call_api` at recursion depth 2, which is exact whenever the
configured fallback model identifier is non-empty (the dispatch recurses
at most once: the recursive call resolves to the fallback model itself
and cannot re-dispatch). -/
def callApi (cfg : Config) (env : Nat → ApiResponse) (msgs : List Message)
    (modelArg : Option String) : List Step × Option (Except ApiError String) :=
  callApiFuel cfg env msgs 2 modelArg 0

/-- Is a step an HTTP request attempt? -/
def isRequestStep : Step → Bool
  | .request _ _ _ => true
  | .sleep _ => false

/-- Number of HTTP request attempts in a trace. -/
def requestCount (steps : List Step) : Nat :=
  (steps.filter isRequestStep).length

/-- A step dispatches no model other than `m` (sleeps trivially qualify). -/
def stepUsesModel (m : String) : Step → Bool
  | .request m2 _ _ => m2 == m
  | .sleep _ => true

/-- A response on which `_call_api`'s classification neither returns nor
raises: timeouts, connection errors, and every HTTP error other than
401, 402 and a vision-rejecting 400. -/
def isRetryable : ApiResponse → Bool
  | .success _ => false
  | .timeout => true
  | .connectionError => true
  | .httpError status body =>
    !(status == 401 || status == 402 || (status == 400 && mentionsVision body))

/-! ### Prompt composer (module constants `BOARD_TEMPLATES`,
`SYSTEM_PROMPT_TEMPLATE`, `CONFIDENCE_SECTION` and the method
`_build_context_section`) -/

/-- Module constant `BOARD_TEMPLATES`. -/
def BOARD_TEMPLATES : List (String × String) :=
  [("retrospektive",
    "Dies ist ein Retrospektiven-Board. Typische Kategorien: \x27Was lief gut\x27, \x27Was lief schlecht\x27, \x27Maßnahmen/Action Items\x27. Achte auf Voting-Punkte zur Priorisierung von Maßnahmen."),
   ("ideensammlung",
    "Dies ist ein Ideensammlungs-Board (Brainstorming). Zettel sind in thematische Cluster gruppiert. Klebepunkte/Votes zeigen Priorisierung der Ideen."),
   ("metaplan",
    "Dies ist ein Metaplan-Board. Fragen stehen oben, Antworten als Karten darunter. Spalten strukturieren die Themen."),
   ("5s_audit",
    "Dies ist ein 5S-Audit-Board. Die 5 Kategorien: Sortieren / Setzen / Säubern / Standardisieren / Selbstdisziplin. Bewertungen oder Maßnahmen sind den Kategorien zugeordnet."),
   ("custom", "")]

/-- `BOARD_TEMPLATES.get(key, "")`. -/
def templatesGet (key : String) : String :=
  match BOARD_TEMPLATES.find? (fun p => p.1 == key) with
  | some p => p.2
  | none => ""

/-- `BoardDigitizer._build_context_section` translated branch for branch;
the Python truthiness tests `self.context` and `template_text` become
inequality with the empty string. -/
def buildContextSection (cfg : Config) : String :=
  let template_text := templatesGet cfg.template
  let template_text :=
    if cfg.template = "custom" ∧ cfg.context ≠ "" then
      "Board-Kontext: " ++ cfg.context
    else if cfg.context ≠ "" then
      template_text ++ "\n\nZusätzlicher Kontext: " ++ cfg.context
    else template_text
  if template_text ≠ "" then "Board-Kontext:\n" ++ template_text ++ "\n" else ""

/-- Module constant `CONFIDENCE_SECTION`. -/
def CONFIDENCE_SECTION : String :=
  "\n- Unsichere Erkennungen → mit [?] markieren und Konfidenz in Prozent angeben: [?] (Konfidenz: 65%)"

/-- `SYSTEM_PROMPT_TEMPLATE.format(context_section=…, confidence_section=…)`:
the module-level template with its two placeholders substituted. -/
def systemPromptTemplate (context_section confidence_section : String) : String :=
  "Du bist ein Experte für die Digitalisierung von Workshop-Boards und Metaplan-Wänden.\n\n"
  ++ context_section
  ++ "\n\nAnalysiere das Bild nach folgendem strikten Ablauf:\n\n### SCHRITT 1 – STRUKTURANALYSE\n1. Beschreibe zuerst die Struktur: Spalten, Cluster, Matrix, Freiform oder Mindmap?\n2. Haben die Farben der Zettel eine erkennbare Bedeutung? (z.B. Gelb=Fakten, Grün=Ideen, Rot=Kritik)\n   Falls unklar: schreibe \"generisch\".\n3. Gibt es Voting-Punkte/Klebepunkte? Wenn ja, zähle sie exakt nach Farbe und Position.\n4. Dokumentiere Verbindungen: Pfeile oder Linien zwischen Zetteln.\n\n### SCHRITT 2 – TRANSKRIPTION\nErstelle ein Markdown das die erkannte Struktur abbildet:\n- Spalten → ## Überschriften\n- Cluster → ## Cluster-Titel + verschachtelte Listen\n- Zettel → * Listenpunkte (Text 1:1, inkl. Abkürzungen & Tippfehler)\n- Unleserliches → [unleserlich] oder [?]\n- Votes/Punkte → in Klammern: (3 rote Punkte, 1 grüner Punkt)\n- Farben wenn relevant → (Farbe: Rot) als Annotation"
  ++ confidence_section
  ++ "\n\n### SCHRITT 5 – QUALITÄTSEINSCHÄTZUNG\nGib am Ende eine Gesamteinschätzung deiner Erkennungsqualität ab (0-100%) und begründe sie kurz."

/-- The system prompt shared by stages 1 and 2 (`analyze_structure` /
`transcribe_raw`). -/
def systemPrompt (cfg : Config) : String :=
  systemPromptTemplate (buildContextSection cfg)
    (if cfg.confidence then CONFIDENCE_SECTION else "")

/-- `BoardDigitizer._build_vision_message`. -/
def buildVisionMessage (image_b64 mime_type prompt : String) : List Message :=
  [⟨"user",
    .parts [.imageUrl ("data:" ++ mime_type ++ ";base64," ++ image_b64),
            .text prompt]⟩]

/-! ### Stage message builders

Each public stage method composes a message list and hands it to
`_call_api`; the builders below are those compositions (lines 309-455 of
the source), with the executor factored out so that the payloads can be
inspected directly. -/

/-- The message list `analyze_structure` sends (stage 1). -/
def analyzeStructureMessages (cfg : Config) (image_b64 mime_type : String) : List Message :=
  let prompt :=
    "Führe NUR Schritt 1 (STRUKTURANALYSE) durch. Beschreibe Layout-Typ, Farb-Semantik, Voting-Punkte und Verbindungen. Sei präzise und strukturiert."
  ⟨"system", .text (systemPrompt cfg)⟩ :: buildVisionMessage image_b64 mime_type prompt

/-- The message list `transcribe_raw` sends (stage 2); embeds the stage-1
output `structure_analysis` verbatim in the user prompt. -/
def transcribeRawMessages (cfg : Config) (image_b64 mime_type structure_analysis : String) :
    List Message :=
  let prompt :=
    "Die Strukturanalyse hat folgendes ergeben:\n\n" ++ structure_analysis
    ++ "\n\nFühre nun Schritt 2 (TRANSKRIPTION) durch. Transkribiere ALLE Zettel/Karten 1:1, inklusive Tippfehler und Abkürzungen. Nutze die erkannte Struktur als Gliederung (## für Spalten/Cluster, * für Zettel). Annotiere Voting-Punkte und relevante Farben."
  ⟨"system", .text (systemPrompt cfg)⟩ :: buildVisionMessage image_b64 mime_type prompt

/-- The single user prompt `clean_and_enrich` sends (stage 3). -/
def cleanAndEnrichPrompt (cfg : Config) (raw_content structure_analysis : String) : String :=
  buildContextSection cfg ++ "\n"
  ++ "Du erhältst eine Rohdaten-Transkription eines Workshop-Boards. Führe folgende Bereinigungen durch:\n\n1. Löse Abkürzungen auf (NUR wenn Kontext eindeutig, sonst belassen)\n2. Sortiere Einträge absteigend nach Votes/Stimmen (falls vorhanden)\n3. Entferne Farb-Annotationen wenn inhaltlich irrelevant (Noise Reduction)\n4. Reduziere Klebepunkte auf Zahlenwerte: \x27(3 rote Punkte, 1 grün)\x27 → \x27(4 Stimmen)\x27\n5. Behalte die Markdown-Struktur (##, *) bei\n\n"
  ++ "Strukturkontext:\n" ++ structure_analysis ++ "\n\n"
  ++ "Rohdaten:\n\n" ++ raw_content

/-- The message list `clean_and_enrich` sends (stage 3). -/
def cleanAndEnrichMessages (cfg : Config) (raw_content structure_analysis : String) :
    List Message :=
  [⟨"user", .text (cleanAndEnrichPrompt cfg raw_content structure_analysis)⟩]

/-- The single user prompt `synthesize_summary` sends (stage 4). -/
def synthesizeSummaryPrompt (cfg : Config) (cleaned_content structure_analysis : String) :
    String :=
  let template_hint := templatesGet cfg.template
  buildContextSection cfg ++ "\n"
  ++ "Board-Template: " ++ cfg.template ++ "\n"
  ++ (if template_hint ≠ "" then "Template-Kontext: " ++ template_hint else "") ++ "\n\n"
  ++ "Erstelle eine strukturierte _Summary.md aus den bereinigten Board-Daten.\n\n## Pflicht-Struktur der Summary:\n\n### Executive Summary (max. 10 Zeilen)\n- Kernaussage \x27in a nutshell\x27\n- Top 1-2 Themen oder Beschlüsse\n- Größte Hürde oder Kontroverse (falls erkennbar)\n\n### Detaillierter Bericht\n- Stichpunkte → ausformulierte, vollständige Sätze\n- Strukturiert nach Themenbereichen aus der Analyse\n- Pfeile/Verbindungen verbalisieren: \x27Thema A führt zu Thema B\x27\n- Absteigende Sortierung nach Relevanz/Votes\n\n"
  ++ "Strukturanalyse:\n" ++ structure_analysis ++ "\n\n"
  ++ "Bereinigte Daten:\n\n" ++ cleaned_content

/-- The message list `synthesize_summary` sends (stage 4). -/
def synthesizeSummaryMessages (cfg : Config) (cleaned_content structure_analysis : String) :
    List Message :=
  [⟨"user", .text (synthesizeSummaryPrompt cfg cleaned_content structure_analysis)⟩]

/-! ### `process_board`: the pipeline orchestrator

The file system is an association list from path to content where the
most recent write wins; `process_board` becomes a state-passing function
that also records which stage calls were dispatched to the executor.
The four remote stage results are abstracted by an `oracle` (a stubbed
executor): the claims settled on `processBoard` concern control flow and
persistence for arbitrary stage outputs, and the actual payloads of each
stage are settled separately on the message builders above. -/

/-- Abstract file system: latest write first. -/
def FS := List (String × String)

/-- Read a file. -/
def fsGet (fs : FS) (k : String) : Option String :=
  (List.find? (fun p => p.1 == k) fs).map (·.2)

/-- Write (or overwrite) a file. -/
def fsSet (fs : FS) (k v : String) : FS :=
  (k, v) :: fs

/-- One of the four pipeline stages. -/
inductive Stage where
  | s1
  | s2
  | s3
  | s4
deriving DecidableEq, Repr

/-- The locally raised failures of `process_board` plus a failing stage
call propagated from `_call_api`. -/
inductive PBError where
  | fileNotFound (stem : String)
  | unsupportedFormat (suffix : String)
  | stageFailed (s : Stage) (e : ApiError)
deriving DecidableEq, Repr

/-- The `image_path` argument of `process_board`: whether the file
exists, its extension (`Path.suffix`, case preserved) and its base name
(`Path.stem`). -/
structure Image where
  present : Bool
  suffix : String
  stem : String
deriving DecidableEq, Repr

/-- The `.get(suffix, "image/jpeg")` lookup of `mime_map` in
`_encode_image` (the suffix is lower-cased by the caller). -/
def mimeMapGet (suffix : String) : String :=
  match [(".jpg", "image/jpeg"), (".jpeg", "image/jpeg"),
         (".png", "image/png"), (".webp", "image/webp")].find?
      (fun p => p.1 == suffix) with
  | some p => p.2
  | none => "image/jpeg"

/-- The declared media subtype `process_board` uses for an image path:
`_encode_image` lower-cases the suffix and consults `mime_map`. -/
def selectedMime (img : Image) : String :=
  mimeMapGet (lowerStr img.suffix)

/-- Path of the raw artifact: `self.output_dir / f"{board_name}_Raw.md"`. -/
def rawPath (cfg : Config) (img : Image) : String :=
  cfg.output_dir ++ "/" ++ img.stem ++ "_Raw.md"

/-- Path of the summary artifact:
`self.output_dir / f"{board_name}_Summary.md"`. -/
def summaryPath (cfg : Config) (img : Image) : String :=
  cfg.output_dir ++ "/" ++ img.stem ++ "_Summary.md"

/-- The `raw_header` string built in `process_board` (`now` stands for
`time.strftime(...)`). -/
def rawHeader (cfg : Config) (now board_name structure_analysis : String) : String :=
  "# Rohdaten-Transkription: " ++ board_name ++ "\n\n**Erstellt:** " ++ now
  ++ "\n**Modell:** " ++ cfg.model ++ "\n**Template:** " ++ cfg.template
  ++ "\n\n---\n\n## Strukturanalyse\n\n" ++ structure_analysis
  ++ "\n\n---\n\n## Transkription\n\n"

/-- The `summary_header` string built in `process_board`. -/
def summaryHeader (cfg : Config) (now board_name : String) : String :=
  "# Executive Summary: " ++ board_name ++ "\n\n**Erstellt:** " ++ now
  ++ "\n**Modell:** " ++ cfg.model ++ "\n**Template:** " ++ cfg.template
  ++ "\n\n---\n\n"

/-- `BoardDigitizer.process_board` (lines 457-530): precondition checks,
the four stage calls in order, the raw artifact written immediately
after stage 2 and the summary artifact after stage 4.  Returns the
resulting file system, the list of stage calls dispatched to the
executor, and either the two artifact paths or the first failure. -/
def processBoard (cfg : Config) (now : String) (img : Image)
    (oracle : Stage → Except ApiError String) (fs : FS) :
    FS × List Stage × Except PBError (String × String) :=
  if img.present = false then
    (fs, [], .error (.fileNotFound img.stem))
  else if SUPPORTED_FORMATS.contains (lowerStr img.suffix) = false then
    (fs, [], .error (.unsupportedFormat img.suffix))
  else
    match oracle .s1 with
    | .error e => (fs, [.s1], .error (.stageFailed .s1 e))
    | .ok structure_analysis =>
      match oracle .s2 with
      | .error e => (fs, [.s1, .s2], .error (.stageFailed .s2 e))
      | .ok raw_content =>
        let fs1 := fsSet fs (rawPath cfg img)
          (rawHeader cfg now img.stem structure_analysis ++ raw_content)
        match oracle .s3 with
        | .error e => (fs1, [.s1, .s2, .s3], .error (.stageFailed .s3 e))
        | .ok _cleaned_content =>
          match oracle .s4 with
          | .error e => (fs1, [.s1, .s2, .s3, .s4], .error (.stageFailed .s4 e))
          | .ok summary_content =>
            let fs2 := fsSet fs1 (summaryPath cfg img)
              (summaryHeader cfg now img.stem ++ summary_content)
            (fs2, [.s1, .s2, .s3, .s4], .ok (rawPath cfg img, summaryPath cfg img))

/-! ### The batch loop of `main` (lines 696-715) -/

/-- The `for image_path in images` loop of `main`: each image is
processed with its own stubbed stage oracle; a success increments
`success_count`, any raised failure is caught and increments
`error_count`, and the loop continues with the next image. -/
def runBatch (cfg : Config) (now : String) (fs : FS) (success_count error_count : Nat) :
    List (Image × (Stage → Except ApiError String)) → FS × Nat × Nat
  | [] => (fs, success_count, error_count)
  | (img, oracle) :: rest =>
    let r := processBoard cfg now img oracle fs
    match r.2.2 with
    | .ok _ => runBatch cfg now r.1 (success_count + 1) error_count rest
    | .error _ => runBatch cfg now r.1 success_count (error_count + 1) rest

/-- The whole batch run starting from an empty output directory and zero
counters. -/
def mainBatch (cfg : Config) (now : String)
    (images : List (Image × (Stage → Except ApiError String))) : FS × Nat × Nat :=
  runBatch cfg now [] 0 0 images

/-! ### Literal containment of one string in another -/

/-- `needle` occurs literally inside `hay`. -/
def strContains (hay needle : String) : Prop :=
  ∃ pre post : List Char, hay.data = pre ++ needle.data ++ post

/-- A content part carries `x` literally in its text. -/
def partHasText (x : String) : ContentPart → Prop
  | .text s => strContains s x
  | .imageUrl _ => False

/-- A message carries `x` literally in some text of its content. -/
def messageHasText (x : String) : Message → Prop
  | ⟨_, .text s⟩ => strContains s x
  | ⟨_, .parts ps⟩ => ∃ p ∈ ps, partHasText x p

/-- A request payload (message list) carries `x` literally. -/
def payloadHasText (msgs : List Message) (x : String) : Prop :=
  ∃ m ∈ msgs, messageHasText x m

/-! ### Concrete scenario definitions used by the theorems -/

/-- A permanently timing-out endpoint. -/
def timeoutEnv : Nat → ApiResponse := fun _ => .timeout

/-- An endpoint that always answers with an unclassified HTTP 500 error. -/
def http500Env : Nat → ApiResponse := fun _ => .httpError 500 "Internal Server Error"

/-- A configuration with distinct, non-empty primary and fallback models. -/
def cfgDemo : Config := ⟨"key", "m", "f", "out", 4000, "custom", "", false⟩

/-- A configuration whose primary and fallback model identifiers coincide. -/
def cfgSameModels : Config := ⟨"key", "m", "m", "out", 4000, "custom", "", false⟩

/-- A configuration whose fallback model identifier is the empty string
(`FALLBACK_MODEL=` in the environment). -/
def cfgNoFallback : Config := ⟨"key", "m", "", "out", 4000, "custom", "", false⟩

/-- Does the executor outcome exist and consist of the exhausted-retries
`RuntimeError`? -/
def isExhaustedFailure : Option (Except ApiError String) → Bool
  | some (.error (.allAttemptsFailed _)) => true
  | _ => false

/-- Is a `process_board` result a raised failure? -/
def isErrorResult : Except PBError (String × String) → Bool
  | .error _ => true
  | .ok _ => false

/-! ### Executor lemmas -/

/-- Unrolling the retry loop over a permanently timing-out endpoint: three
attempts, with back-off sleeps of `RETRY_BASE_DELAY ^ 1` and
`RETRY_BASE_DELAY ^ 2` seconds before the second and third attempt and no
sleep after the last one. -/
theorem runAttempts_timeout (msgs : List Message) (used : String) (k : Nat) :
    runAttempts timeoutEnv msgs used MAX_RETRIES 1 k none =
      ([.request used msgs 1, .sleep 2, .request used msgs 2, .sleep 4, .request used msgs 3],
       k + 3, .exhausted (some .timeout)) := rfl

/-- An HTTP 401 response raises on the very first attempt. -/
theorem runAttempts_http401 (body : String) (msgs : List Message) (used : String) (k : Nat) :
    runAttempts (fun _ => .httpError 401 body) msgs used MAX_RETRIES 1 k none =
      ([.request used msgs 1], k + 1, .terminal .authError) := rfl

/-- An HTTP 402 response raises on the very first attempt. -/
theorem runAttempts_http402 (body : String) (msgs : List Message) (used : String) (k : Nat) :
    runAttempts (fun _ => .httpError 402 body) msgs used MAX_RETRIES 1 k none =
      ([.request used msgs 1], k + 1, .terminal .balanceError) := rfl

/-- An HTTP 400 response whose body names the missing vision capability
raises on the very first attempt. -/
theorem runAttempts_http400v (body : String) (hv : mentionsVision body = true)
    (msgs : List Message) (used : String) (k : Nat) :
    runAttempts (fun _ => .httpError 400 body) msgs used MAX_RETRIES 1 k none =
      ([.request used msgs 1], k + 1, .terminal (.visionError used)) := by
  simp [MAX_RETRIES, runAttempts, hv]

/-- Unrolling the retry loop over an endpoint that always answers with an
HTTP error `_call_api` does not classify (not 401/402/vision-400/429/503):
three attempts, each retry preceded by the flat `RETRY_BASE_DELAY` sleep. -/
theorem runAttempts_flatHttp (status : Nat) (body : String)
    (hn1 : status ≠ 401) (hn2 : status ≠ 402)
    (hnv : ¬(status = 400 ∧ mentionsVision body = true))
    (hn4 : status ≠ 429) (hn5 : status ≠ 503)
    (msgs : List Message) (used : String) (k : Nat) :
    runAttempts (fun _ => .httpError status body) msgs used MAX_RETRIES 1 k none =
      ([.request used msgs 1, .sleep RETRY_BASE_DELAY, .request used msgs 2,
        .sleep RETRY_BASE_DELAY, .request used msgs 3],
       k + 3, .exhausted (some (.httpError status body))) := by
  simp [MAX_RETRIES, RETRY_BASE_DELAY, runAttempts, hn1, hn2, hnv, hn4, hn5]

/-- Request count of the step pattern emitted by one failed retryable
attempt: the request itself plus an optional sleep before the rest. -/
theorem requestCount_attempt_shape (used : String) (msgs : List Message) (a : Nat)
    (c : Prop) [Decidable c] (x : Nat) (rest : List Step) :
    requestCount (Step.request used msgs a :: (if c then [Step.sleep x] else []) ++ rest)
      = requestCount rest + 1 := by
  split <;> simp [requestCount, List.filter_cons, isRequestStep]

/-- The step pattern of one failed retryable attempt dispatches only the
requested model, provided the rest does. -/
theorem all_attempt_shape (used : String) (msgs : List Message) (a : Nat)
    (c : Prop) [Decidable c] (x : Nat) (rest : List Step)
    (h : rest.all (stepUsesModel used) = true) :
    (Step.request used msgs a :: (if c then [Step.sleep x] else []) ++ rest).all
      (stepUsesModel used) = true := by
  split <;> simp [List.all_cons, List.all_append, stepUsesModel, h]

/-- Over any endpoint whose responses are all retryable, the loop makes
exactly `r` attempts, dispatches only the requested model, and falls
through exhausted. -/
theorem runAttempts_retryable (env : Nat → ApiResponse) (msgs : List Message) (used : String)
    (H : ∀ j, isRetryable (env j) = true) :
    ∀ r a k last,
      requestCount (runAttempts env msgs used r a k last).1 = r
      ∧ (runAttempts env msgs used r a k last).1.all (stepUsesModel used) = true
      ∧ ∃ l2, (runAttempts env msgs used r a k last).2.2 = .exhausted l2 := by
  intro r
  induction r with
  | zero => exact fun a k last => ⟨rfl, rfl, last, rfl⟩
  | succ n ih =>
    intro a k last
    cases hE : env k with
    | success c =>
      have := H k
      rw [hE] at this
      simp [isRetryable] at this
    | timeout =>
      obtain ⟨ihc, iha, l2, iho⟩ := ih (a + 1) (k + 1) (some .timeout)
      simp only [runAttempts, hE]
      exact ⟨by rw [requestCount_attempt_shape, ihc],
             all_attempt_shape used msgs a _ _ _ iha, l2, iho⟩
    | connectionError =>
      obtain ⟨ihc, iha, l2, iho⟩ := ih (a + 1) (k + 1) (some .connectionError)
      simp only [runAttempts, hE]
      exact ⟨by rw [requestCount_attempt_shape, ihc],
             all_attempt_shape used msgs a _ _ _ iha, l2, iho⟩
    | httpError status body =>
      have hr := H k
      rw [hE] at hr
      simp [isRetryable] at hr
      obtain ⟨⟨h1, h2⟩, h3⟩ := hr
      have h3' : ¬(status = 400 ∧ mentionsVision body = true) := by
        rintro ⟨hs, hmv⟩
        rcases h3 with h | h
        · exact h hs
        · rw [hmv] at h
          cases h
      obtain ⟨ihc, iha, l2, iho⟩ := ih (a + 1) (k + 1) (some (.httpError status body))
      simp only [runAttempts, hE, if_neg h1, if_neg h2]
      rw [if_neg h3']
      by_cases h45 : status = 429 ∨ status = 503
      · rw [if_pos h45]
        exact ⟨by rw [requestCount_attempt_shape, ihc],
               all_attempt_shape used msgs a _ _ _ iha, l2, iho⟩
      · rw [if_neg h45]
        exact ⟨by rw [requestCount_attempt_shape, ihc],
               all_attempt_shape used msgs a _ _ _ iha, l2, iho⟩

/-- If the fallback model identifier is empty while the primary model is
not, `_call_api` over any permanently retryable endpoint re-dispatches to
itself forever: `model or self.model` resolves the empty fallback back to
the primary model, so the guard `used_model != self.fallback_model` stays
true at every recursion level and no fuel bound yields an outcome. -/
theorem callApiFuel_empty_fallback (cfg : Config) (env : Nat → ApiResponse)
    (msgs : List Message) (hf : cfg.fallback_model = "") (hm : cfg.model ≠ "")
    (H : ∀ j, isRetryable (env j) = true) :
    ∀ fuel modelArg k, (modelArg = none ∨ modelArg = some "") →
      (callApiFuel cfg env msgs fuel modelArg k).2 = none := by
  intro fuel
  induction fuel with
  | zero => intro modelArg k _; rfl
  | succ n ih =>
    intro modelArg k hma
    obtain ⟨_, _, l2, iho⟩ := runAttempts_retryable env msgs cfg.model H MAX_RETRIES 1 k none
    rcases hR : runAttempts env msgs cfg.model MAX_RETRIES 1 k none with ⟨steps, k2, out⟩
    rw [hR] at iho
    simp only at iho
    subst iho
    rcases hma with rfl | rfl <;>
    · simp only [callApiFuel, hR, reduceIte]
      rw [if_pos (by rw [hf]; exact hm)]
      exact ih (some cfg.fallback_model) k2 (Or.inr (by rw [hf]))

/-! ### Claims C1, C2, C3, C8, C9: the request executor -/

/-- Claim C1: for every `_call_api` invocation against an endpoint that
answers with HTTP 401 (authentication failure), HTTP 402 (insufficient
balance), or HTTP 400 whose body names the missing vision capability,
exactly one request attempt is made in total, no backoff delay is slept,
no fallback model is dispatched, and the corresponding specific terminal
failure is raised immediately. -/
theorem claim_C1 (cfg : Config) (msgs : List Message) (body : String)
    (hv : mentionsVision body = true) :
    callApi cfg (fun _ => .httpError 401 body) msgs none =
      ([.request cfg.model msgs 1], some (.error .authError))
    ∧ callApi cfg (fun _ => .httpError 402 body) msgs none =
      ([.request cfg.model msgs 1], some (.error .balanceError))
    ∧ callApi cfg (fun _ => .httpError 400 body) msgs none =
      ([.request cfg.model msgs 1], some (.error (.visionError cfg.model))) := by
  refine ⟨?_, ?_, ?_⟩
  · simp [callApi, callApiFuel, runAttempts_http401]
  · simp [callApi, callApiFuel, runAttempts_http402]
  · simp [callApi, callApiFuel, runAttempts_http400v body hv]

/-- Witness for C1 at a concrete configuration, empty message list and a
body that names the missing vision capability. -/
theorem claim_C1_witness :
    callApi cfgDemo (fun _ => .httpError 401 "No vision support") [] none =
      ([.request "m" [] 1], some (.error .authError))
    ∧ callApi cfgDemo (fun _ => .httpError 402 "No vision support") [] none =
      ([.request "m" [] 1], some (.error .balanceError))
    ∧ callApi cfgDemo (fun _ => .httpError 400 "No vision support") [] none =
      ([.request "m" [] 1], some (.error (.visionError "m"))) :=
  claim_C1 cfgDemo [] "No vision support" (by decide)

/-- Claim C2: with `MAX_RETRIES = 3` attempts configured and a permanently
timing-out endpoint, `_call_api` makes exactly 3 attempts against the
primary model, then dispatches the same message sequence to the fallback
model for exactly 3 further attempts, and raises the exhausted-retries
failure — `2 * MAX_RETRIES` attempts in total, where the `k`-th retry
against a model is preceded by a `RETRY_BASE_DELAY ^ k` second sleep (the
sleep mandated by the attempt that just failed). -/
theorem claim_C2 (cfg : Config) (msgs : List Message)
    (h1 : cfg.model ≠ cfg.fallback_model) (h2 : cfg.fallback_model ≠ "") :
    callApi cfg timeoutEnv msgs none =
      ([.request cfg.model msgs 1, .sleep (RETRY_BASE_DELAY ^ 1), .request cfg.model msgs 2,
        .sleep (RETRY_BASE_DELAY ^ 2), .request cfg.model msgs 3,
        .request cfg.fallback_model msgs 1, .sleep (RETRY_BASE_DELAY ^ 1),
        .request cfg.fallback_model msgs 2, .sleep (RETRY_BASE_DELAY ^ 2),
        .request cfg.fallback_model msgs 3],
       some (.error (.allAttemptsFailed (some .timeout))))
    ∧ requestCount (callApi cfg timeoutEnv msgs none).1 = 2 * MAX_RETRIES := by
  have ht : callApi cfg timeoutEnv msgs none =
      ([.request cfg.model msgs 1, .sleep 2, .request cfg.model msgs 2,
        .sleep 4, .request cfg.model msgs 3,
        .request cfg.fallback_model msgs 1, .sleep 2,
        .request cfg.fallback_model msgs 2, .sleep 4,
        .request cfg.fallback_model msgs 3],
       some (.error (.allAttemptsFailed (some .timeout)))) := by
    simp [callApi, callApiFuel, runAttempts_timeout, h1, h2]
  refine ⟨by rw [ht]; norm_num [RETRY_BASE_DELAY], by rw [ht]; rfl⟩

/-- Witness for C2 at a concrete configuration with distinct primary and
fallback models. -/
theorem claim_C2_witness :
    callApi cfgDemo timeoutEnv [] none =
      ([.request "m" [] 1, .sleep 2, .request "m" [] 2, .sleep 4, .request "m" [] 3,
        .request "f" [] 1, .sleep 2, .request "f" [] 2, .sleep 4, .request "f" [] 3],
       some (.error (.allAttemptsFailed (some .timeout))))
    ∧ requestCount (callApi cfgDemo timeoutEnv [] none).1 = 2 * MAX_RETRIES :=
  claim_C2 cfgDemo [] (by decide) (by decide)

/-- Claim C3: when the configured primary model equals the configured
fallback model, an invocation whose attempts all fail retryably performs
no fallback re-dispatch: exactly `MAX_RETRIES` attempts are made, all
against the primary model, and the exhausted-retries failure is terminal. -/
theorem claim_C3 (cfg : Config) (env : Nat → ApiResponse) (msgs : List Message)
    (heq : cfg.model = cfg.fallback_model) (H : ∀ j, isRetryable (env j) = true) :
    requestCount (callApi cfg env msgs none).1 = MAX_RETRIES
    ∧ (callApi cfg env msgs none).1.all (stepUsesModel cfg.model) = true
    ∧ isExhaustedFailure (callApi cfg env msgs none).2 = true := by
  obtain ⟨hc, ha, l2, ho⟩ := runAttempts_retryable env msgs cfg.model H MAX_RETRIES 1 0 none
  rcases hR : runAttempts env msgs cfg.model MAX_RETRIES 1 0 none with ⟨steps, k2, out⟩
  rw [hR] at hc ha ho
  simp only at hc ha ho
  subst ho
  have : callApi cfg env msgs none = (steps, some (.error (.allAttemptsFailed l2))) := by
    simp only [callApi, callApiFuel, hR]
    rw [if_neg (by simp [heq])]
  rw [this]
  exact ⟨hc, ha, rfl⟩

/-- Witness for C3: identical primary and fallback model over a
permanently timing-out endpoint. -/
theorem claim_C3_witness :
    requestCount (callApi cfgSameModels timeoutEnv [] none).1 = MAX_RETRIES
    ∧ (callApi cfgSameModels timeoutEnv [] none).1.all (stepUsesModel "m") = true
    ∧ isExhaustedFailure (callApi cfgSameModels timeoutEnv [] none).2 = true :=
  claim_C3 cfgSameModels timeoutEnv [] rfl (fun _ => rfl)

/-- Counterexample to claim C8 as stated: against an endpoint permanently
returning an unclassified HTTP 500 error, `_call_api` does not stop after
one retry — it makes 3 attempts against the primary model (two retries,
each after a flat `RETRY_BASE_DELAY` sleep) before escalating to the
fallback model, as the full trace shows. -/
theorem claim_C8_counterexample :
    callApi cfgDemo http500Env [] none =
      ([.request "m" [] 1, .sleep 2, .request "m" [] 2, .sleep 2, .request "m" [] 3,
        .request "f" [] 1, .sleep 2, .request "f" [] 2, .sleep 2, .request "f" [] 3],
       some (.error (.allAttemptsFailed (some (.httpError 500 "Internal Server Error")))))
    ∧ ((callApi cfgDemo http500Env [] none).1.filter
        (fun s => isRequestStep s && stepUsesModel "m" s)).length = 3 := by
  refine ⟨rfl, rfl⟩

/-- Claim C8 (amended): an HTTP error response that is not classified as
authentication, insufficient-balance, capability, rate-limit, or
service-unavailable is retried with a flat (non-exponential)
`RETRY_BASE_DELAY` sleep before each retry, up to the same `MAX_RETRIES`
total attempts per model as other retryable failures — two retries after
the initial attempt, not one — before the model's budget counts as
exhausted and the call escalates to the fallback model or the terminal
failure. -/
theorem claim_C8 (cfg : Config) (msgs : List Message) (status : Nat) (body : String)
    (h1 : cfg.model ≠ cfg.fallback_model) (h2 : cfg.fallback_model ≠ "")
    (hn1 : status ≠ 401) (hn2 : status ≠ 402)
    (hnv : ¬(status = 400 ∧ mentionsVision body = true))
    (hn4 : status ≠ 429) (hn5 : status ≠ 503) :
    callApi cfg (fun _ => .httpError status body) msgs none =
      ([.request cfg.model msgs 1, .sleep RETRY_BASE_DELAY, .request cfg.model msgs 2,
        .sleep RETRY_BASE_DELAY, .request cfg.model msgs 3,
        .request cfg.fallback_model msgs 1, .sleep RETRY_BASE_DELAY,
        .request cfg.fallback_model msgs 2, .sleep RETRY_BASE_DELAY,
        .request cfg.fallback_model msgs 3],
       some (.error (.allAttemptsFailed (some (.httpError status body))))) := by
  simp [callApi, callApiFuel, runAttempts_flatHttp status body hn1 hn2 hnv hn4 hn5,
    h1, h2, RETRY_BASE_DELAY]

/-- Witness for the amended C8 at HTTP status 500. -/
theorem claim_C8_witness :
    callApi cfgDemo (fun _ => .httpError 500 "boom") [] none =
      ([.request "m" [] 1, .sleep 2, .request "m" [] 2, .sleep 2, .request "m" [] 3,
        .request "f" [] 1, .sleep 2, .request "f" [] 2, .sleep 2, .request "f" [] 3],
       some (.error (.allAttemptsFailed (some (.httpError 500 "boom"))))) :=
  claim_C8 cfgDemo [] 500 "boom" (by decide) (by decide) (by decide) (by decide)
    (by decide) (by decide) (by decide)

/-- Claim C9, evaluated at the failing configuration: with an empty
fallback model identifier and a non-empty primary model, `_call_api` over
a permanently timing-out endpoint never produces an outcome at any
recursion depth, and already after 3 self-dispatches it has made 9
attempts — strictly more than the claimed `2 * MAX_RETRIES` bound.  (In
Python this recursion runs until the interpreter's recursion limit
aborts it, so the documented one-outcome guarantee is violated.) -/
theorem claim_C9 :
    (∀ fuel k, (callApiFuel cfgNoFallback timeoutEnv [] fuel none k).2 = none)
    ∧ requestCount (callApiFuel cfgNoFallback timeoutEnv [] 3 none 0).1 = 9
    ∧ 2 * MAX_RETRIES < requestCount (callApiFuel cfgNoFallback timeoutEnv [] 3 none 0).1 := by
  refine ⟨?_, rfl, by decide⟩
  intro fuel k
  exact callApiFuel_empty_fallback cfgNoFallback timeoutEnv [] rfl (by decide)
    (fun _ => rfl) fuel none k (Or.inl rfl)

/-! ### String-containment lemmas -/

/-- Appending distributes over the character data. -/
theorem string_data_append (a b : String) : (a ++ b).data = a.data ++ b.data := rfl

/-- `x` occurs in `a ++ x ++ b`. -/
theorem strContains_appendContext (a x b : String) : strContains (a ++ x ++ b) x :=
  ⟨a.data, b.data, rfl⟩

/-- `x` occurs in `a ++ x`. -/
theorem strContains_appendEnd (a x : String) : strContains (a ++ x) x :=
  ⟨a.data, [], by simp [string_data_append]⟩

/-- Containment is preserved by appending on the right. -/
theorem strContains_extendRight (hay x c : String) (h : strContains hay x) :
    strContains (hay ++ c) x := by
  obtain ⟨p, q, hd⟩ := h
  exact ⟨p, q ++ c.data, by simp [string_data_append, hd]⟩

/-- Containment is preserved by appending on the left. -/
theorem strContains_extendLeft (c hay x : String) (h : strContains hay x) :
    strContains (c ++ hay) x := by
  obtain ⟨p, q, hd⟩ := h
  exact ⟨c.data ++ p, q, by simp [string_data_append, hd]⟩

/-- A single plain-text user message carries whatever its prompt carries. -/
theorem payloadHasText_single (role prompt x : String) (h : strContains prompt x) :
    payloadHasText [⟨role, .text prompt⟩] x :=
  ⟨⟨role, .text prompt⟩, by simp, h⟩

/-- A system message followed by a vision message carries whatever the
vision message's text part carries. -/
theorem payloadHasText_vision (sys b64 mime prompt x : String) (h : strContains prompt x) :
    payloadHasText (⟨"system", .text sys⟩ :: buildVisionMessage b64 mime prompt) x :=
  ⟨⟨"user", .parts [.imageUrl ("data:" ++ mime ++ ";base64," ++ b64), .text prompt]⟩,
   by simp [buildVisionMessage],
   ⟨.text prompt, by simp, h⟩⟩

/-! ### Claim C4: pipeline data threading -/

/-- Claim C4: for arbitrary stage outputs, the stage-2 request payload
contains the literal text of stage 1's output; the stage-3 payload
contains both stage 1's and stage 2's outputs; and the stage-4 payload
contains both stage 1's and stage 3's outputs. -/
theorem claim_C4 (cfg : Config) (image_b64 mime_type sa raw cleaned : String) :
    payloadHasText (transcribeRawMessages cfg image_b64 mime_type sa) sa
    ∧ payloadHasText (cleanAndEnrichMessages cfg raw sa) sa
    ∧ payloadHasText (cleanAndEnrichMessages cfg raw sa) raw
    ∧ payloadHasText (synthesizeSummaryMessages cfg cleaned sa) sa
    ∧ payloadHasText (synthesizeSummaryMessages cfg cleaned sa) cleaned := by
  refine ⟨?_, ?_, ?_, ?_, ?_⟩
  · exact payloadHasText_vision _ _ _ _ _
      (strContains_extendRight _ _ _ (strContains_appendEnd _ _))
  · exact payloadHasText_single _ _ _
      (strContains_extendRight _ _ _ (strContains_extendRight _ _ _
        (strContains_appendContext _ _ _)))
  · exact payloadHasText_single _ _ _ (strContains_appendEnd _ _)
  · exact payloadHasText_single _ _ _
      (strContains_extendRight _ _ _ (strContains_extendRight _ _ _
        (strContains_appendContext _ _ _)))
  · exact payloadHasText_single _ _ _ (strContains_appendEnd _ _)

/-! ### File-system lemmas and claim C5 -/

/-- Reading back the path just written. -/
theorem fsGet_fsSet_same (fs : FS) (k v : String) : fsGet (fsSet fs k v) k = some v := by
  simp [fsGet, fsSet]

/-- Writing one path leaves every other path unchanged. -/
theorem fsGet_fsSet_other (fs : FS) (k k2 v : String) (h : k2 ≠ k) :
    fsGet (fsSet fs k2 v) k = fsGet fs k := by
  simp [fsGet, fsSet, List.find?_cons, h]

/-- Two strings with a common prefix and suffixes of different lengths
differ. -/
theorem rawPath_ne_summaryPath (cfg : Config) (img : Image) :
    rawPath cfg img ≠ summaryPath cfg img := by
  intro h
  have hd : (rawPath cfg img).data = (summaryPath cfg img).data := by rw [h]
  have hlen := congrArg List.length hd
  simp [rawPath, summaryPath, string_data_append] at hlen

/-- Claim C5: when stages 1 and 2 succeed and stage 3 (or stage 3 succeeds
and stage 4) fails, `process_board` has already persisted the raw
artifact — header plus stage-1 and stage-2 content — and that artifact is
present unmodified in the final file system, while the summary artifact
path is untouched and the run ends in a raised failure. -/
theorem claim_C5 (cfg : Config) (now : String) (img : Image)
    (oracle : Stage → Except ApiError String) (fs : FS) (s1out s2out : String)
    (hp : img.present = true)
    (hs : SUPPORTED_FORMATS.contains (lowerStr img.suffix) = true)
    (h1 : oracle .s1 = .ok s1out) (h2 : oracle .s2 = .ok s2out)
    (h34 : (∃ e, oracle .s3 = .error e)
      ∨ (∃ c e, oracle .s3 = .ok c ∧ oracle .s4 = .error e)) :
    fsGet (processBoard cfg now img oracle fs).1 (rawPath cfg img)
      = some (rawHeader cfg now img.stem s1out ++ s2out)
    ∧ fsGet (processBoard cfg now img oracle fs).1 (summaryPath cfg img)
      = fsGet fs (summaryPath cfg img)
    ∧ isErrorResult (processBoard cfg now img oracle fs).2.2 = true := by
  have hwr := fsGet_fsSet_same fs (rawPath cfg img)
    (rawHeader cfg now img.stem s1out ++ s2out)
  have hsum := fsGet_fsSet_other fs (summaryPath cfg img) (rawPath cfg img)
    (rawHeader cfg now img.stem s1out ++ s2out) (rawPath_ne_summaryPath cfg img)
  rcases h34 with ⟨e3, h3⟩ | ⟨c3, e4, h3, h4⟩ <;>
  · simp only [processBoard, hp, hs, h1, h2, h3]
    first
    | exact ⟨hwr, hsum, rfl⟩
    | (simp only [h4]; exact ⟨hwr, hsum, rfl⟩)

/-- A stage oracle whose stage 3 fails terminally. -/
def oracleS3Fails : Stage → Except ApiError String
  | .s1 => .ok "STRUKTUR"
  | .s2 => .ok "ROHDATEN"
  | .s3 => .error (.allAttemptsFailed (some .timeout))
  | .s4 => .ok "SUMMARY"

/-- A demo image argument: an existing `.jpg` file named `board`. -/
def imgDemo : Image := ⟨true, ".jpg", "board"⟩

/-- Witness for C5: a concrete run whose stage 3 fails after stages 1 and
2 succeeded. -/
theorem claim_C5_witness :
    fsGet (processBoard cfgDemo "2026-02-26 12:00" imgDemo oracleS3Fails []).1
      (rawPath cfgDemo imgDemo)
      = some (rawHeader cfgDemo "2026-02-26 12:00" "board" "STRUKTUR" ++ "ROHDATEN")
    ∧ fsGet (processBoard cfgDemo "2026-02-26 12:00" imgDemo oracleS3Fails []).1
      (summaryPath cfgDemo imgDemo)
      = fsGet [] (summaryPath cfgDemo imgDemo)
    ∧ isErrorResult (processBoard cfgDemo "2026-02-26 12:00" imgDemo oracleS3Fails []).2.2
      = true :=
  claim_C5 cfgDemo "2026-02-26 12:00" imgDemo oracleS3Fails [] "STRUKTUR" "ROHDATEN"
    rfl (by decide) rfl rfl (Or.inl ⟨.allAttemptsFailed (some .timeout), rfl⟩)

/-! ### Claim C6: media subtypes and format rejection -/

/-- Counterexample to the injectivity part of claim C6: the two distinct
supported extensions `.jpg` and `.jpeg` are mapped to the same declared
media subtype `image/jpeg`, so the extension-to-subtype mapping is not
injective over the supported set. -/
theorem claim_C6_counterexample :
    selectedMime ⟨true, ".jpg", "a"⟩ = selectedMime ⟨true, ".jpeg", "a"⟩
    ∧ (".jpg" : String) ≠ ".jpeg"
    ∧ SUPPORTED_FORMATS.contains ".jpg" = true
    ∧ SUPPORTED_FORMATS.contains ".jpeg" = true := by
  refine ⟨rfl, by decide, by decide, by decide⟩

/-- Claim C6 (amended): the extension-to-subtype mapping is total over
the supported set and selects the correct declared media subtype for
each supported extension (but is not injective, since `.jpg` and `.jpeg`
share `image/jpeg`); and for every path whose lower-cased extension lies
outside the supported set, `process_board` raises a locally-detected
failure with zero executor calls and an untouched file system. -/
theorem claim_C6 (cfg : Config) (now : String) (img : Image)
    (oracle : Stage → Except ApiError String) (fs : FS)
    (hbad : SUPPORTED_FORMATS.contains (lowerStr img.suffix) = false) :
    (mimeMapGet ".jpg" = "image/jpeg" ∧ mimeMapGet ".jpeg" = "image/jpeg"
      ∧ mimeMapGet ".png" = "image/png" ∧ mimeMapGet ".webp" = "image/webp")
    ∧ (processBoard cfg now img oracle fs).2.1 = []
    ∧ (processBoard cfg now img oracle fs).1 = fs
    ∧ isErrorResult (processBoard cfg now img oracle fs).2.2 = true := by
  refine ⟨by decide, ?_⟩
  by_cases hp : img.present = false
  · simp [processBoard, hp, isErrorResult]
  · simp only [processBoard, if_neg hp, hbad]
    exact ⟨rfl, rfl, rfl⟩

/-- An existing file with the unsupported `.gif` extension. -/
def imgGif : Image := ⟨true, ".gif", "scan"⟩

/-- Witness for C6 at the unsupported extension `.gif`. -/
theorem claim_C6_witness :
    (mimeMapGet ".jpg" = "image/jpeg" ∧ mimeMapGet ".jpeg" = "image/jpeg"
      ∧ mimeMapGet ".png" = "image/png" ∧ mimeMapGet ".webp" = "image/webp")
    ∧ (processBoard cfgDemo "T" imgGif oracleS3Fails []).2.1 = []
    ∧ (processBoard cfgDemo "T" imgGif oracleS3Fails []).1 = []
    ∧ isErrorResult (processBoard cfgDemo "T" imgGif oracleS3Fails []).2.2 = true :=
  claim_C6 cfgDemo "T" imgGif oracleS3Fails [] (by decide)

/-! ### Claim C7: the context block -/

/-- A string with a non-empty left part is non-empty. -/
theorem string_eq_empty_of_data (a : String) (h : a.data = []) : a = "" := by
  cases a with
  | mk d => rw [show d = [] from h]

/-- Appending anything to a non-empty string stays non-empty. -/
theorem append_left_ne_empty (a b : String) (h : a ≠ "") : a ++ b ≠ "" := fun hc => by
  have hd := congrArg String.data hc
  rw [string_data_append] at hd
  exact h (string_eq_empty_of_data a (List.append_eq_nil.mp hd).1)

/-- The `custom` template row of `BOARD_TEMPLATES` is empty. -/
theorem templatesGet_custom : templatesGet "custom" = "" := rfl

/-- Counterexample to claim C7 as stated: for `template="custom"` and
`context="X"` the produced context block is not `"Board-Kontext: X"` —
`_build_context_section` wraps that text in a further
`"Board-Kontext:\n…\n"` frame. -/
theorem claim_C7_counterexample :
    buildContextSection ⟨"key", "m", "f", "out", 4000, "custom", "X", false⟩
      ≠ "Board-Kontext: X"
    ∧ buildContextSection ⟨"key", "m", "f", "out", 4000, "custom", "X", false⟩
      = "Board-Kontext:\nBoard-Kontext: X\n" := by
  refine ⟨by decide, rfl⟩

/-- Claim C7 (amended): the produced context block equals the
`"Board-Kontext:\n…\n"` wrapper around the composed text, whose inner
content is exactly as the claim describes: `"Board-Kontext: X"` for the
custom template with context `X`; the template's fixed text for a named
template without context; the template text first, then the extra
context, when both are present; and an empty or unknown template key
with no context yields no context block at all. -/
theorem claim_C7 (cfg : Config) :
    (cfg.template = "custom" → cfg.context ≠ "" →
      buildContextSection cfg
        = "Board-Kontext:\n" ++ ("Board-Kontext: " ++ cfg.context) ++ "\n")
    ∧ (templatesGet cfg.template ≠ "" → cfg.context = "" →
      buildContextSection cfg
        = "Board-Kontext:\n" ++ templatesGet cfg.template ++ "\n")
    ∧ (templatesGet cfg.template ≠ "" → cfg.context ≠ "" →
      buildContextSection cfg
        = "Board-Kontext:\n"
          ++ (templatesGet cfg.template ++ "\n\nZusätzlicher Kontext: " ++ cfg.context)
          ++ "\n")
    ∧ (templatesGet cfg.template = "" → cfg.context = "" →
      buildContextSection cfg = "") := by
  refine ⟨?_, ?_, ?_, ?_⟩
  · intro ht hc
    have hne : ("Board-Kontext: " ++ cfg.context) ≠ "" :=
      append_left_ne_empty _ _ (by decide)
    simp [buildContextSection, ht, hc, hne]
  · intro hT hc
    simp [buildContextSection, hc, hT]
  · intro hT hc
    have hcu : cfg.template ≠ "custom" := fun h => hT (by rw [h, templatesGet_custom])
    have hne : (templatesGet cfg.template ++ "\n\nZusätzlicher Kontext: " ++ cfg.context)
        ≠ "" :=
      append_left_ne_empty _ _ (append_left_ne_empty _ _ hT)
    simp [buildContextSection, hcu, hc, hne]
  · intro hT hc
    simp [buildContextSection, hT, hc]

/-- Witness for the amended C7: the custom-template case and the
named-template case, concretely. -/
theorem claim_C7_witness :
    buildContextSection ⟨"key", "m", "f", "out", 4000, "custom", "X", false⟩
      = "Board-Kontext:\n" ++ ("Board-Kontext: " ++ "X") ++ "\n"
    ∧ buildContextSection ⟨"key", "m", "f", "out", 4000, "metaplan", "", false⟩
      = "Board-Kontext:\n" ++ templatesGet "metaplan" ++ "\n" :=
  ⟨(claim_C7 ⟨"key", "m", "f", "out", 4000, "custom", "X", false⟩).1 rfl (by decide),
   (claim_C7 ⟨"key", "m", "f", "out", 4000, "metaplan", "", false⟩).2.1 (by decide) rfl⟩

/-! ### Claim C10: batch isolation -/

/-- A stage oracle for which every stage succeeds. -/
def oracleAllOk : Stage → Except ApiError String := fun _ => .ok "TEXT"

/-- A stage oracle whose stage 1 always fails terminally. -/
def oracleS1Fails : Stage → Except ApiError String
  | .s1 => .error .authError
  | _ => .ok "TEXT"

/-- The three-image batch in which the second image's stage 1 always
fails terminally. -/
def batchDemo : List (Image × (Stage → Except ApiError String)) :=
  [(⟨true, ".jpg", "b1"⟩, oracleAllOk),
   (⟨true, ".jpg", "b2"⟩, oracleS1Fails),
   (⟨true, ".jpg", "b3"⟩, oracleAllOk)]

/-- Claim C10: the batch loop attempts every image regardless of earlier
failures (successes plus failures always equals the number of images),
and in the concrete three-image batch where image 2 fails terminally at
stage 1 the coordinator reports exactly 2 successes and 1 failure, with
artifacts on disk for images 1 and 3 only. -/
theorem claim_C10 :
    (∀ (cfg : Config) (now : String)
        (images : List (Image × (Stage → Except ApiError String))) (fs : FS) (sc ec : Nat),
      (runBatch cfg now fs sc ec images).2.1 + (runBatch cfg now fs sc ec images).2.2
        = sc + ec + images.length)
    ∧ (mainBatch cfgDemo "T" batchDemo).2 = (2, 1)
    ∧ (fsGet (mainBatch cfgDemo "T" batchDemo).1
        (rawPath cfgDemo ⟨true, ".jpg", "b1"⟩)).isSome = true
    ∧ (fsGet (mainBatch cfgDemo "T" batchDemo).1
        (summaryPath cfgDemo ⟨true, ".jpg", "b1"⟩)).isSome = true
    ∧ (fsGet (mainBatch cfgDemo "T" batchDemo).1
        (rawPath cfgDemo ⟨true, ".jpg", "b3"⟩)).isSome = true
    ∧ (fsGet (mainBatch cfgDemo "T" batchDemo).1
        (summaryPath cfgDemo ⟨true, ".jpg", "b3"⟩)).isSome = true
    ∧ fsGet (mainBatch cfgDemo "T" batchDemo).1
        (rawPath cfgDemo ⟨true, ".jpg", "b2"⟩) = none
    ∧ fsGet (mainBatch cfgDemo "T" batchDemo).1
        (summaryPath cfgDemo ⟨true, ".jpg", "b2"⟩) = none := by
  refine ⟨?_, by decide, by decide, by decide, by decide, by decide, by decide, by decide⟩
  intro cfg now images
  induction images with
  | nil => intro fs sc ec; rfl
  | cons hd tl ih =>
    intro fs sc ec
    obtain ⟨img, oracle⟩ := hd
    rcases hO : (processBoard cfg now img oracle fs).2.2 with e | v <;>
      simp only [runBatch, hO] <;>
      rw [ih] <;>
      simp [List.length_cons] <;>
      omega

end DigitizeBoard

